import Mathlib

/-!
# Verification of the homework_bot poller (src/homework.py)

A shallow embedding of the single-file polling bot `homework.py`.
The program polls a homework-review API, validates the JSON payload,
renders a status message for the first homework record and sends it
through a bot client, with deduplicated error notifications.

Python exceptions are embedded as the `Exc` inductive and fallible
calls return `Except Exc α`; every function additionally returns the
list of log lines it emits, so a Python function of the source becomes
a Lean function into `PyM α := List LogEntry × Except Exc α`.
External effects (the HTTP request, the bot send call) are passed in
as explicit arguments describing their outcome.
-/

/-- Log levels used by `homework.py`'s logger. -/
inductive LogLevel where
  | debug
  | error
  | critical
deriving Repr, DecidableEq

/-- One line emitted through the logger. -/
structure LogEntry where
  level : LogLevel
  msg : String
deriving Repr, DecidableEq

/-- Python exception values, by the classes `main`'s `except` clauses
distinguish.

Modelled from the spec: `ErrorCodeException` and
`VariableNotAvailableException` are imported from the repository's
`exeptions` module, which is not under `src/`; per the spec the
"bad status code" domain error "must propagate to the loop's failure
handling", so `errorCode` is modelled as an exception kind distinct
from `requests.RequestException` (`requestExc`) — otherwise the
`except requests.RequestException` inside `get_api_answer` would
swallow it.  `other` stands for any exception matched only by the
final `except Exception` clause (e.g. `AttributeError`, `IndexError`). -/
inductive Exc where
  | keyError (msg : String)
  | typeError (msg : String)
  | errorCode (msg : String)
  | requestExc (msg : String)
  | other (msg : String)
deriving Repr, DecidableEq

/-- Python's `str(error)` / `f-string` rendering of an exception.
`str` of a single-argument `KeyError` is the `repr` of its argument,
which wraps the message in single quotes; the other classes render as
their plain message. -/
def Exc.render : Exc → String
  | .keyError m => "\x27" ++ m ++ "\x27"
  | .typeError m => m
  | .errorCode m => m
  | .requestExc m => m
  | .other m => m

/-- `true` for the exception classes handled by the four recoverable
`except` clauses of `main` (`KeyError`, `TypeError`,
`ErrorCodeException`, `requests.RequestException`). -/
def Exc.isRecoverable : Exc → Bool
  | .other _ => false
  | _ => true

/-- The result of a Python call: emitted log lines paired with either a
returned value or a raised exception. -/
abbrev PyM (α : Type) : Type := List LogEntry × Except Exc α

/-- A homework record: a mapping whose `homework_name` and `status`
entries may be absent (`.get` returns `None`). -/
structure Homework where
  homework_name : Option String
  status : Option String
deriving Repr, DecidableEq

/-- The value stored under the `homeworks` key: either a list of
homework records or some other (non-`list`) object. -/
inductive HomeworksVal where
  | list (hs : List Homework)
  | nonList
deriving Repr, DecidableEq

/-- An API response mapping: `homeworks` and `current_date` may each be
absent. -/
structure Response where
  homeworks : Option HomeworksVal
  current_date : Option Int
deriving Repr, DecidableEq

/-- Outcome of the `requests.get` call in `get_api_answer`:
either an HTTP response with a status code and a JSON-decode result
(`.json()` raises a `requests`-level error on a malformed body), or a
network-level `requests.RequestException` (timeout, connection error,
etc.). -/
inductive HttpResult where
  | response (code : Nat) (json : Except String Response)
  | networkError (msg : String)

/-- `HOMEWORK_VERDICTS`: the fixed three-entry verdict table. -/
def HOMEWORK_VERDICTS : List (String × String) :=
  [("approved", "Работа проверена: ревьюеру всё понравилось. Ура!"),
   ("reviewing", "Работа взята на проверку ревьюером."),
   ("rejected", "Работа проверена: у ревьюера есть замечания.")]

/-- `send_message(bot, message)`: attempt the bot send call; any
exception it raises is caught and logged at error level, success is
logged at debug level.  The argument is the outcome of
`bot.send_message`. -/
def send_message (botSend : Except Exc Unit) : PyM Unit :=
  match botSend with
  | .ok _ => ([⟨.debug, "Сообщение отправлено"⟩], .ok ())
  | .error e =>
      ([⟨.error, "Сообщение не удалось отправить " ++ e.render⟩], .ok ())

/-- `get_api_answer(timestamp)`: issue the GET request.  On status 200
return the decoded JSON body; on any other status log and raise
`ErrorCodeException`; a `requests.RequestException` from `requests.get`
or from `.json()` (its decode error subclasses it) is caught and
logged, and the function falls through returning `None`. -/
def get_api_answer (timestamp : Option Int) (http : HttpResult) :
    PyM (Option Response) :=
  match http with
  | .networkError msg => ([⟨.error, msg⟩], .ok none)
  | .response code json =>
      if code = 200 then
        match json with
        | .ok r => ([⟨.debug, "Запрос отпрвлен"⟩], .ok (some r))
        | .error msg =>
            ([⟨.debug, "Запрос отпрвлен"⟩, ⟨.error, msg⟩], .ok none)
      else
        ([⟨.debug, "Запрос отпрвлен"⟩,
          ⟨.error, "Ошибка при запросе к эндпойту. " ++ toString code⟩],
         .error (.errorCode ("Ошибка при запросе к эндпойту. " ++ toString code)))

/-- `check_response(response)`: `True`/`False` by whether the
`homeworks` list is non-empty; `TypeError` if the key is absent or its
value is not a `list`.  `main` may pass `None` (the fall-through return
of `get_api_answer`), on which the membership test
`'homeworks' in response` itself raises `TypeError`. -/
def check_response (response : Option Response) : PyM Bool :=
  match response with
  | none =>
      ([], .error (.typeError "argument of type \x27NoneType\x27 is not iterable"))
  | some r =>
      match r.homeworks with
      | some (.list []) =>
          ([⟨.debug, "Домашние задания не найдены"⟩], .ok false)
      | some (.list (_ :: _)) => ([], .ok true)
      | some .nonList => ([], .error (.typeError "Нет ключа homeworks"))
      | none => ([], .error (.typeError "Нет ключа homeworks"))

/-- Python rendering of `homework.get("status")` inside an f-string:
`None` when the key is absent. -/
def statusRepr : Option String → String
  | none => "None"
  | some s => s

/-- `parse_status(homework)`: `KeyError` when `homework_name` is
missing or when `status` is not a key of `HOMEWORK_VERDICTS` (both
logged at error level first); otherwise the rendered status-change
message. -/
def parse_status (homework : Homework) : PyM String :=
  match homework.homework_name with
  | none =>
      ([⟨.error, "В ответе нет ожидаемого поля \"homework_name\""⟩],
       .error (.keyError "В ответе нет ожидаемого поля \"homework_name\""))
  | some name =>
      match homework.status with
      | some s =>
          match HOMEWORK_VERDICTS.lookup s with
          | some verdict =>
              ([], .ok ("Изменился статус проверки работы \"" ++ name
                        ++ "\". " ++ verdict))
          | none =>
              ([⟨.error, "В поле status неожиданное значение " ++ statusRepr (some s)⟩],
               .error (.keyError ("В поле status неожиданное значение "
                                  ++ statusRepr (some s))))
      | none =>
          ([⟨.error, "В поле status неожиданное значение " ++ statusRepr none⟩],
           .error (.keyError ("В поле status неожиданное значение "
                              ++ statusRepr none)))

/-- The in-memory loop state of `main`: the `from_date` cursor (set
from `response.get("current_date")`, hence possibly `None`), the last
sent status message, and the text of the last notified error. -/
structure LoopState where
  timestamp : Option Int
  current_status : String
  last_error : String
deriving Repr, DecidableEq

/-- The state `main` enters the loop with: `timestamp = int(time.time())`,
`current_status = "current_status"`, `last_error = ""`. -/
def initState (t0 : Int) : LoopState :=
  ⟨some t0, "current_status", ""⟩

/-- `response.get("homeworks")[0]` as evaluated in `main` after
`check_response` returned `True`.  The error branches (`response` is
`None`, key absent, empty or non-list value) are unreachable then —
`check_response` would have raised — and in Python would raise
exceptions outside the recoverable classes, hence `.other`. -/
def homeworksFirst (response : Option Response) : PyM Homework :=
  match response with
  | none => ([], .error (.other "NoneType object has no attribute get"))
  | some r =>
      match r.homeworks with
      | some (.list (h :: _)) => ([], .ok h)
      | some (.list []) => ([], .error (.other "list index out of range"))
      | some .nonList => ([], .error (.other "object is not subscriptable"))
      | none => ([], .error (.other "NoneType object is not subscriptable"))

/-- `response.get("current_date")` as evaluated in `main` (reached on
every non-raising iteration).  `response = None` is unreachable there —
`check_response(None)` would have raised — and in Python would raise an
`AttributeError`, hence `.other`. -/
def getCurrentDate (response : Option Response) : PyM (Option Int) :=
  match response with
  | none => ([], .error (.other "NoneType object has no attribute get"))
  | some r => ([], .ok r.current_date)

/-- The body of the `try` block of one `main` loop iteration:
fetch, validate, and when there are homeworks parse the first one and
send its status if it changed, then advance the cursor from
`current_date`.  Returns the updated state and the list of message
texts handed to `send_message` (delivery itself is best-effort and
does not influence the loop, see `send_message`). -/
def run_cycle_body (s : LoopState) (http : HttpResult) :
    PyM (LoopState × List String) :=
  match get_api_answer s.timestamp http with
  | (logs1, .error e) => (logs1, .error e)
  | (logs1, .ok response) =>
    match check_response response with
    | (logs2, .error e) => (logs1 ++ logs2, .error e)
    | (logs2, .ok true) =>
      match homeworksFirst response with
      | (logs3, .error e) => (logs1 ++ logs2 ++ logs3, .error e)
      | (logs3, .ok hw) =>
        match parse_status hw with
        | (logs4, .error e) => (logs1 ++ logs2 ++ logs3 ++ logs4, .error e)
        | (logs4, .ok status) =>
          match getCurrentDate response with
          | (logs5, .error e) =>
              (logs1 ++ logs2 ++ logs3 ++ logs4
                 ++ [⟨.debug, "Статус не изменился"⟩] ++ logs5, .error e)
          | (logs5, .ok ts) =>
              if status ≠ s.current_status then
                (logs1 ++ logs2 ++ logs3 ++ logs4
                   ++ [⟨.debug, "Статус не изменился"⟩] ++ logs5,
                 .ok ({ s with current_status := status, timestamp := ts },
                      [status]))
              else
                (logs1 ++ logs2 ++ logs3 ++ logs4
                   ++ [⟨.debug, "Статус не изменился"⟩] ++ logs5,
                 .ok ({ s with timestamp := ts }, []))
    | (logs2, .ok false) =>
      match getCurrentDate response with
      | (logs5, .error e) => (logs1 ++ logs2 ++ logs5, .error e)
      | (logs5, .ok ts) =>
          (logs1 ++ logs2 ++ logs5, .ok ({ s with timestamp := ts }, []))

/-- Observable outcome of one loop iteration: the state carried to the
next iteration, the message texts handed to `send_message`, the log
lines, and whether the loop `break`s. -/
structure StepResult where
  state : LoopState
  sent : List String
  logs : List LogEntry
  done : Bool
deriving Repr, DecidableEq

/-- The `except` clauses of `main`'s loop, applied to the outcome of
the `try` body.  `KeyError`, `TypeError`, `ErrorCodeException` and
`requests.RequestException` have four identical handlers: notify via
`send_error_message` (which sends `str(error)`) only when the text
differs from `last_error`, remembering it; anything else is logged at
critical level, a final `Сбой в работе программы` notice is sent, and
the loop `break`s. -/
def dispatch (s : LoopState) (r : PyM (LoopState × List String)) : StepResult :=
  match r with
  | (logs, .ok (s2, sent)) => ⟨s2, sent, logs, false⟩
  | (logs, .error e) =>
      match e with
      | .keyError _ | .typeError _ | .errorCode _ | .requestExc _ =>
          if s.last_error ≠ e.render then
            ⟨{ s with last_error := e.render }, [e.render], logs, false⟩
          else
            ⟨s, [], logs, false⟩
      | .other m =>
          ⟨s, ["Сбой в работе программы: " ++ m],
           logs ++ [⟨.critical, "Сбой в работе программы: " ++ m⟩], true⟩

/-- One full loop iteration of `main`: the `try` body followed by the
`except` dispatch. -/
def step (s : LoopState) (http : HttpResult) : StepResult :=
  dispatch s (run_cycle_body s http)

/-- A 200 response with a well-formed JSON body. -/
def mkHttp (r : Response) : HttpResult :=
  .response 200 (.ok r)

/-- The state after running a sequence of iterations. -/
def runSteps (s : LoopState) (inputs : List HttpResult) : LoopState :=
  inputs.foldl (fun t h => (step t h).state) s

/-- Whether an embedded call returned normally. -/
def exceptOk {α : Type} : Except Exc α → Bool
  | .ok _ => true
  | .error _ => false

/-- `true` when every iteration on the given inputs runs its `try`
body to completion (no exception raised). -/
def successfulRun : LoopState → List HttpResult → Bool
  | _, [] => true
  | s, h :: t =>
      exceptOk (run_cycle_body s h).2 && successfulRun (step s h).state t

/-- The response of end-to-end scenario 1 of the spec:
`{"homeworks": [{"homework_name":"hw1","status":"approved"}],
  "current_date": 1700000100}`. -/
def scenario1Response : Response :=
  ⟨some (.list [⟨some "hw1", some "approved"⟩]), some 1700000100⟩

/-! ## Helper lemmas -/

lemma dispatch_ok_eq (s s2 : LoopState) (sent : List String)
    (logs : List LogEntry) :
    dispatch s (logs, .ok (s2, sent)) = ⟨s2, sent, logs, false⟩ := rfl

lemma dispatch_recoverable_new (s : LoopState) (e : Exc) (logs : List LogEntry)
    (hrec : e.isRecoverable = true) (hne : s.last_error ≠ e.render) :
    dispatch s (logs, .error e) =
      ⟨{ s with last_error := e.render }, [e.render], logs, false⟩ := by
  cases e <;> simp [Exc.isRecoverable] at hrec <;> simp [dispatch, hne]

lemma dispatch_recoverable_dup (s : LoopState) (e : Exc) (logs : List LogEntry)
    (hrec : e.isRecoverable = true) (heq : s.last_error = e.render) :
    dispatch s (logs, .error e) = ⟨s, [], logs, false⟩ := by
  cases e <;> simp [Exc.isRecoverable] at hrec <;> simp [dispatch, heq]

lemma dispatch_fatal_eq (s : LoopState) (m : String) (logs : List LogEntry) :
    dispatch s (logs, .error (.other m)) =
      ⟨s, ["Сбой в работе программы: " ++ m],
       logs ++ [⟨.critical, "Сбой в работе программы: " ++ m⟩], true⟩ := rfl

lemma run_cycle_body_ok_last_error (s : LoopState) (http : HttpResult)
    (logs : List LogEntry) (s2 : LoopState) (sent : List String)
    (h : run_cycle_body s http = (logs, .ok (s2, sent))) :
    s2.last_error = s.last_error := by
  unfold run_cycle_body at h
  repeat' split at h
  all_goals (rw [Prod.mk.injEq] at h; obtain ⟨h1, h2⟩ := h)
  all_goals
    (first
      | exact Except.noConfusion h2
      | (injection h2 with h3; injection h3 with h4 h5; subst h4; rfl))

lemma step_ok_last_error (s : LoopState) (http : HttpResult)
    (hok : exceptOk (run_cycle_body s http).2 = true) :
    (step s http).state.last_error = s.last_error := by
  rcases h : run_cycle_body s http with ⟨logs, r⟩
  cases r with
  | ok v =>
      rcases v with ⟨s2, sent⟩
      have hpres := run_cycle_body_ok_last_error s http logs s2 sent h
      simp [step, h, dispatch, hpres]
  | error e =>
      rw [h] at hok
      simp [exceptOk] at hok

lemma runSteps_last_error (inputs : List HttpResult) :
    ∀ s : LoopState, successfulRun s inputs = true →
      (runSteps s inputs).last_error = s.last_error := by
  induction inputs with
  | nil => intro s _; rfl
  | cons h t ih =>
      intro s hok
      rw [successfulRun, Bool.and_eq_true] at hok
      have hstep := step_ok_last_error s h hok.1
      have hrest := ih _ hok.2
      have hfold : runSteps s (h :: t) = runSteps (step s h).state t := rfl
      rw [hfold, hrest, hstep]

lemma dispatch_recoverable_fields (s : LoopState) (e : Exc)
    (logs : List LogEntry) (hrec : e.isRecoverable = true) :
    (dispatch s (logs, .error e)).state.timestamp = s.timestamp ∧
    (dispatch s (logs, .error e)).state.current_status = s.current_status ∧
    (dispatch s (logs, .error e)).done = false := by
  cases e <;> simp [Exc.isRecoverable] at hrec <;>
    (simp only [dispatch]; split <;> simp)

/-! ## Claim theorems -/

/-- C1: On a network-level request failure `get_api_answer` logs the
error and returns `None` instead of raising, and the loop iteration is
then handled as a recoverable failure: the cursor keeps its previous
value and the loop does not terminate. -/
theorem network_failure_is_recoverable (s : LoopState) (msg : String) :
    get_api_answer s.timestamp (.networkError msg) =
      ([⟨.error, msg⟩], .ok none) ∧
    (step s (.networkError msg)).state.timestamp = s.timestamp ∧
    (step s (.networkError msg)).done = false := by
  have hbody : run_cycle_body s (.networkError msg) =
      ([⟨.error, msg⟩],
       .error (.typeError "argument of type \x27NoneType\x27 is not iterable")) := rfl
  have hd := dispatch_recoverable_fields s
    (.typeError "argument of type \x27NoneType\x27 is not iterable")
    [⟨.error, msg⟩] rfl
  refine ⟨rfl, ?_, ?_⟩
  · rw [step, hbody]; exact hd.1
  · rw [step, hbody]; exact hd.2.2

/-- C2: `check_response` returns `False` exactly when `homeworks` is an
empty list, `True` exactly when it is a non-empty list, and raises a
`TypeError` exactly when the key is absent or its value is not a list;
on an empty `homeworks` no status message is sent that cycle. -/
theorem check_response_contract (r : Response) (s : LoopState) :
    ((check_response (some r)).2 = .ok false ↔
      r.homeworks = some (.list [])) ∧
    ((check_response (some r)).2 = .ok true ↔
      ∃ hw t, r.homeworks = some (.list (hw :: t))) ∧
    ((∃ m, (check_response (some r)).2 = .error (.typeError m)) ↔
      (r.homeworks = none ∨ r.homeworks = some .nonList)) ∧
    (r.homeworks = some (.list []) → (step s (mkHttp r)).sent = []) := by
  rcases r with ⟨hws, cd⟩
  cases hws with
  | none => simp [check_response]
  | some hv =>
      cases hv with
      | nonList => simp [check_response]
      | list hs =>
          cases hs with
          | nil =>
              refine ⟨by simp [check_response], by simp [check_response],
                by simp [check_response], fun _ => rfl⟩
          | cons h t => simp [check_response]

/-- C3: `parse_status` raises a `KeyError` when `homework_name` is
absent or when `status` is absent or not a key of `HOMEWORK_VERDICTS`;
for a record with name `n` and a known status it returns exactly
`Изменился статус проверки работы "n". v` with `v` the fixed verdict
sentence; the known statuses are exactly approved/reviewing/rejected. -/
theorem parse_status_contract (hw : Homework) :
    (hw.homework_name = none →
      ∃ m, (parse_status hw).2 = .error (.keyError m)) ∧
    (hw.status = none → ∃ m, (parse_status hw).2 = .error (.keyError m)) ∧
    (∀ st, hw.status = some st → HOMEWORK_VERDICTS.lookup st = none →
      ∃ m, (parse_status hw).2 = .error (.keyError m)) ∧
    (∀ n st v, hw.homework_name = some n → hw.status = some st →
      HOMEWORK_VERDICTS.lookup st = some v →
      (parse_status hw).2 =
        .ok ("Изменился статус проверки работы \"" ++ n ++ "\". " ++ v)) ∧
    (∀ st, (HOMEWORK_VERDICTS.lookup st).isSome = true ↔
      st ∈ ["approved", "reviewing", "rejected"]) := by
  obtain ⟨nm, st⟩ := hw
  refine ⟨?_, ?_, ?_, ?_, ?_⟩
  · intro h
    simp only at h
    subst h
    exact ⟨_, rfl⟩
  · intro h
    simp only at h
    subst h
    cases nm <;> exact ⟨_, rfl⟩
  · intro s hst hlk
    simp only at hst
    subst hst
    cases nm <;> simp [parse_status, hlk]
  · intro n s v hn hs hlk
    simp only at hn hs
    subst hn; subst hs
    simp [parse_status, hlk]
  · intro s
    by_cases h1 : s = "approved"
    · subst h1; decide
    by_cases h2 : s = "reviewing"
    · subst h2; decide
    by_cases h3 : s = "rejected"
    · subst h3; decide
    have b1 : (s == "approved") = false := beq_eq_false_iff_ne.mpr h1
    have b2 : (s == "reviewing") = false := beq_eq_false_iff_ne.mpr h2
    have b3 : (s == "rejected") = false := beq_eq_false_iff_ne.mpr h3
    simp [HOMEWORK_VERDICTS, List.lookup, b1, b2, b3, h1, h2, h3]

/-- Witness for C2 at a concrete empty-homeworks response. -/
theorem check_response_contract_witness :
    (check_response (some ⟨some (.list []), some 1700000200⟩)).2 = .ok false ∧
    (step (initState 0) (mkHttp ⟨some (.list []), some 1700000200⟩)).sent = [] := by
  have h := check_response_contract ⟨some (.list []), some 1700000200⟩ (initState 0)
  exact ⟨h.1.mpr rfl, h.2.2.2 rfl⟩

/-- Witness for C3 at a concrete approved record and an unknown status. -/
theorem parse_status_contract_witness :
    (parse_status ⟨some "hw1", some "approved"⟩).2 =
      .ok "Изменился статус проверки работы \"hw1\". Работа проверена: ревьюеру всё понравилось. Ура!" ∧
    (∃ m, (parse_status ⟨some "hw1", some "unknown"⟩).2 =
      .error (.keyError m)) := by
  refine ⟨?_, ?_⟩
  · exact (parse_status_contract ⟨some "hw1", some "approved"⟩).2.2.2.1
      "hw1" "approved" _ rfl rfl rfl
  · exact (parse_status_contract ⟨some "hw1", some "unknown"⟩).2.2.1
      "unknown" rfl rfl

/-- C4: In the loop's recoverable-error handling, an error whose
rendered text differs from `last_error` is notified once and
remembered; the immediately following identical error is suppressed,
while a differently rendered one is notified and remembered. -/
theorem error_dedup_consecutive (s : LoopState) (e e2 : Exc)
    (l1 l2 l3 : List LogEntry)
    (hrec : e.isRecoverable = true) (hrec2 : e2.isRecoverable = true)
    (hne : s.last_error ≠ e.render) :
    (dispatch s (l1, .error e)).sent = [e.render] ∧
    (dispatch s (l1, .error e)).state.last_error = e.render ∧
    (dispatch (dispatch s (l1, .error e)).state (l2, .error e)).sent = [] ∧
    (e2.render ≠ e.render →
      (dispatch (dispatch s (l1, .error e)).state (l3, .error e2)).sent
          = [e2.render] ∧
      (dispatch (dispatch s (l1, .error e)).state
          (l3, .error e2)).state.last_error = e2.render) := by
  rw [dispatch_recoverable_new s e l1 hrec hne]
  refine ⟨rfl, rfl, ?_, ?_⟩
  · rw [dispatch_recoverable_dup _ e l2 hrec rfl]
  · intro hne2
    rw [dispatch_recoverable_new _ e2 l3 hrec2 (fun h => hne2 h.symm)]
    exact ⟨rfl, rfl⟩

/-- Witness for C4 with two concrete errors from the fresh state. -/
theorem error_dedup_consecutive_witness :
    (dispatch (initState 0) ([], .error (.typeError "a"))).sent = ["a"] ∧
    (dispatch (dispatch (initState 0) ([], .error (.typeError "a"))).state
        ([], .error (.typeError "a"))).sent = [] ∧
    (dispatch (dispatch (initState 0) ([], .error (.typeError "a"))).state
        ([], .error (.errorCode "b"))).sent = ["b"] := by
  have h := error_dedup_consecutive (initState 0) (.typeError "a")
    (.errorCode "b") [] [] [] rfl rfl (by decide)
  exact ⟨h.1, h.2.2.1, (h.2.2.2 (by decide)).1⟩

/-- C5: The loop `break`s exactly when the iteration raised an
exception outside the four recoverable classes; such an exception is
logged at critical level and a failure notice is sent. -/
theorem unrecoverable_sole_exit (s : LoopState) (logs : List LogEntry)
    (r : Except Exc (LoopState × List String)) :
    ((dispatch s (logs, r)).done = true ↔ ∃ m, r = .error (.other m)) ∧
    (∀ m, r = .error (.other m) →
      (dispatch s (logs, r)).sent = ["Сбой в работе программы: " ++ m] ∧
      (⟨.critical, "Сбой в работе программы: " ++ m⟩ : LogEntry) ∈
        (dispatch s (logs, r)).logs) := by
  constructor
  · cases r with
    | ok v =>
        rcases v with ⟨s2, sent⟩
        simp [dispatch]
    | error e =>
        cases e <;> simp only [dispatch] <;> (try split) <;> simp
  · rintro m rfl
    simp [dispatch]

/-- Witness for C5 at a concrete unanticipated exception. -/
theorem unrecoverable_sole_exit_witness :
    (dispatch (initState 0) ([], .error (.other "boom"))).done = true ∧
    (dispatch (initState 0) ([], .error (.other "boom"))).sent =
      ["Сбой в работе программы: boom"] := by
  have h := unrecoverable_sole_exit (initState 0) []
    (.error (.other "boom"))
  exact ⟨h.1.mpr ⟨"boom", rfl⟩, (h.2 "boom" rfl).1⟩

/-- C6: A non-200 HTTP status makes `get_api_answer` raise the
`ErrorCodeException` domain error carrying the code, and the loop
handles it as a recoverable, deduplicated error: on first occurrence
exactly one error notification is sent and the text is remembered. -/
theorem bad_status_code_recoverable (s : LoopState) (code : Nat)
    (json : Except String Response) (hcode : code ≠ 200)
    (hne : s.last_error ≠ "Ошибка при запросе к эндпойту. " ++ toString code) :
    (get_api_answer s.timestamp (.response code json)).2 =
      .error (.errorCode ("Ошибка при запросе к эндпойту. " ++ toString code)) ∧
    (step s (.response code json)).sent =
      ["Ошибка при запросе к эндпойту. " ++ toString code] ∧
    (step s (.response code json)).state.last_error =
      "Ошибка при запросе к эндпойту. " ++ toString code ∧
    (step s (.response code json)).done = false := by
  have hget : get_api_answer s.timestamp (.response code json) =
      ([⟨.debug, "Запрос отпрвлен"⟩,
        ⟨.error, "Ошибка при запросе к эндпойту. " ++ toString code⟩],
       .error (.errorCode ("Ошибка при запросе к эндпойту. " ++ toString code))) := by
    simp [get_api_answer, hcode]
  have hbody : run_cycle_body s (.response code json) =
      ([⟨.debug, "Запрос отпрвлен"⟩,
        ⟨.error, "Ошибка при запросе к эндпойту. " ++ toString code⟩],
       .error (.errorCode ("Ошибка при запросе к эндпойту. " ++ toString code))) := by
    rw [run_cycle_body, hget]
  rw [hget]
  refine ⟨rfl, ?_⟩
  rw [step, hbody,
    dispatch_recoverable_new s
      (.errorCode ("Ошибка при запросе к эндпойту. " ++ toString code)) _ rfl hne]
  exact ⟨rfl, rfl, rfl⟩

/-- Witness for C6: a 503 response from the fresh state. -/
theorem bad_status_code_recoverable_witness :
    (step (initState 0) (.response 503 (.error "no body"))).sent =
      ["Ошибка при запросе к эндпойту. 503"] ∧
    (step (initState 0) (.response 503 (.error "no body"))).done = false := by
  have h := bad_status_code_recoverable (initState 0) 503 (.error "no body")
    (by decide) (by decide)
  exact ⟨h.2.1, h.2.2.2⟩

lemma step_success_first (s : LoopState) (r : Response) (hw : Homework)
    (t : List Homework) (st : String)
    (h1 : r.homeworks = some (.list (hw :: t)))
    (hp : (parse_status hw).2 = .ok st) :
    (step s (mkHttp r)).sent =
      (if st = s.current_status then [] else [st]) ∧
    (step s (mkHttp r)).state.current_status = st ∧
    (step s (mkHttp r)).state.timestamp = r.current_date ∧
    (step s (mkHttp r)).state.last_error = s.last_error ∧
    (step s (mkHttp r)).done = false := by
  rcases hp4 : parse_status hw with ⟨l4, pr⟩
  rw [hp4] at hp
  simp only at hp
  subst hp
  by_cases hst : st = s.current_status
  · simp [step, run_cycle_body, mkHttp, get_api_answer, check_response,
      homeworksFirst, getCurrentDate, h1, hp4, hst, dispatch]
  · simp [step, run_cycle_body, mkHttp, get_api_answer, check_response,
      homeworksFirst, getCurrentDate, h1, hp4, hst, dispatch]

/-- C7: A status message is sent only when it differs from the
remembered `current_status`, which is then updated; hence two
consecutive successful cycles extracting the same rendered status text
send it at most once, and exactly once when it differs from the
remembered status. -/
theorem same_status_notified_once (s : LoopState) (r1 r2 : Response)
    (hw1 hw2 : Homework) (t1 t2 : List Homework) (st : String)
    (h1 : r1.homeworks = some (.list (hw1 :: t1)))
    (h2 : r2.homeworks = some (.list (hw2 :: t2)))
    (p1 : (parse_status hw1).2 = .ok st)
    (p2 : (parse_status hw2).2 = .ok st) :
    (step s (mkHttp r1)).sent ++
        (step (step s (mkHttp r1)).state (mkHttp r2)).sent =
      (if st = s.current_status then [] else [st]) ∧
    (step s (mkHttp r1)).state.current_status = st := by
  have hs1 := step_success_first s r1 hw1 t1 st h1 p1
  have hs2 := step_success_first (step s (mkHttp r1)).state r2 hw2 t2 st h2 p2
  refine ⟨?_, hs1.2.1⟩
  rw [hs1.1, hs2.1, hs1.2.1, if_pos rfl, List.append_nil]

/-- Witness for C7: the same approved response processed twice from
the fresh state sends exactly one message. -/
theorem same_status_notified_once_witness :
    (step (initState 0) (mkHttp scenario1Response)).sent ++
        (step (step (initState 0) (mkHttp scenario1Response)).state
          (mkHttp scenario1Response)).sent =
      ["Изменился статус проверки работы \"hw1\". Работа проверена: ревьюеру всё понравилось. Ура!"] := by
  have h := same_status_notified_once (initState 0) scenario1Response
    scenario1Response ⟨some "hw1", some "approved"⟩
    ⟨some "hw1", some "approved"⟩ [] []
    "Изменился статус проверки работы \"hw1\". Работа проверена: ревьюеру всё понравилось. Ура!"
    rfl rfl rfl rfl
  rw [h.1]
  decide

/-- C8: End-to-end scenario 1 — from the fresh loop state with cursor
1700000000, the approved-hw1 response with `current_date` 1700000100
sends exactly the rendered approved message, updates the remembered
status, sets the cursor to 1700000100, and the loop continues. -/
theorem scenario1_end_to_end :
    step (initState 1700000000) (mkHttp scenario1Response) =
      ⟨⟨some 1700000100,
        "Изменился статус проверки работы \"hw1\". Работа проверена: ревьюеру всё понравилось. Ура!",
        ""⟩,
       ["Изменился статус проверки работы \"hw1\". Работа проверена: ревьюеру всё понравилось. Ура!"],
       [⟨.debug, "Запрос отпрвлен"⟩, ⟨.debug, "Статус не изменился"⟩],
       false⟩ := by
  decide

/-- C9: `send_message` never raises: for every outcome of the
underlying bot send call it returns normally, and a send failure is
only logged at error level. -/
theorem send_message_never_raises (botSend : Except Exc Unit) :
    (send_message botSend).2 = .ok () ∧
    (∀ e, botSend = .error e →
      send_message botSend =
        ([⟨.error, "Сообщение не удалось отправить " ++ e.render⟩],
         .ok ())) := by
  constructor
  · cases botSend <;> rfl
  · rintro e rfl
    rfl

/-- Witness for C9 at a concrete failing bot send. -/
theorem send_message_never_raises_witness :
    (send_message (.error (.other "network down"))).2 = .ok () ∧
    send_message (.error (.other "network down")) =
      ([⟨.error, "Сообщение не удалось отправить network down"⟩],
       .ok ()) := by
  have h := send_message_never_raises (.error (.other "network down"))
  exact ⟨h.1, h.2 (.other "network down") rfl⟩

/-- C10: `last_error` is never reset by successful iterations, so a
recoverable error whose text was the last one notified is suppressed
even when successful cycles happened in between. -/
theorem error_suppressed_across_success (s : LoopState) (e : Exc)
    (l1 l2 : List LogEntry) (mids : List HttpResult)
    (hrec : e.isRecoverable = true) (hne : s.last_error ≠ e.render)
    (hok : successfulRun (dispatch s (l1, .error e)).state mids = true) :
    (dispatch s (l1, .error e)).sent = [e.render] ∧
    (runSteps (dispatch s (l1, .error e)).state mids).last_error = e.render ∧
    (dispatch (runSteps (dispatch s (l1, .error e)).state mids)
        (l2, .error e)).sent = [] := by
  rw [dispatch_recoverable_new s e l1 hrec hne] at hok ⊢
  have h2 := runSteps_last_error mids _ hok
  refine ⟨rfl, h2, ?_⟩
  rw [dispatch_recoverable_dup _ e l2 hrec h2]

/-- Witness for C10: an error, one successful empty-homeworks cycle,
then the same error again — the repeat is suppressed. -/
theorem error_suppressed_across_success_witness :
    (dispatch (initState 0) ([], .error (.errorCode "x"))).sent = ["x"] ∧
    (dispatch
        (runSteps (dispatch (initState 0) ([], .error (.errorCode "x"))).state
          [mkHttp ⟨some (.list []), some 7⟩])
        ([], .error (.errorCode "x"))).sent = [] := by
  have h := error_suppressed_across_success (initState 0) (.errorCode "x")
    [] [] [mkHttp ⟨some (.list []), some 7⟩] rfl (by decide) (by decide)
  exact ⟨h.1, h.2.2⟩
